import Mathlib

/-!
Shallow embedding of `src/scan.rs` from the btlescan repository.

Two functions are embedded:

* `bluetooth_scan` (lines 16-62): the discovery-accumulator event loop.
  The asynchronous collaborators are modelled as explicit oracles:
  - `Env.peripheral` models `central.peripheral(&id)` (handle resolution);
  - `Env.props` models `device.properties()` (property lookup,
    `Except Unit (Option PeripheralProperties)` mirrors
    `Result<Option<PeripheralProperties>, Error>`);
  - `sendOk : Nat → Bool` models the outcome of the n-th `tx.send`
    (`false` means the receiving side of the mpsc channel has closed).
  The loop body (lines 29-59) becomes the pure recursion `runLoop` over the
  list of events delivered by `central.events()`; the pause flag only delays
  processing, so it is absent from the pure recursion and modelled separately
  by the timed step machine `step`/`stepN` below.

* `get_characteristics` (lines 66-87): connect under a 10-second `timeout`,
  then flatten the peripheral's characteristic list.

Identities (`PeripheralId`), addresses (`BDAddr`) and UUIDs are modelled as
`String`, byte payloads as `List Nat`, maps as association lists — all opaque
to the embedded logic.
-/

/-- Device handle, modelling `btleplug::platform::Peripheral` as resolved by
`central.peripheral(&id)`; only `device.id()` is inspected by the code, the
rest of the handle is opaque and cloned into the record (line 52). -/
structure DeviceHandle where
  id : String
deriving DecidableEq, Repr

/-- Advertisement-derived metadata, modelling `btleplug`'s
`PeripheralProperties` (the external collaborator's property set, spec §6):
the fields the code reads at lines 45-51. -/
structure PeripheralProperties where
  address : String
  local_name : Option String
  tx_power_level : Option Int
  rssi : Option Int
  manufacturer_data : List (Nat × List Nat)
  service_data : List (String × List Nat)
  services : List String
deriving DecidableEq, Repr

/-- `PeripheralProperties::default()` (line 40): every optional field absent,
every collection empty, the all-zero address. -/
def PeripheralProperties.default : PeripheralProperties :=
  { address := "00:00:00:00:00:00"
    local_name := none
    tx_power_level := none
    rssi := none
    manufacturer_data := []
    service_data := []
    services := [] }

/-- Modelled from the spec: `DeviceInfo` (crate::structs, not under src/) —
one record per distinct discovered identity, with the fields of spec §3;
`handle` is the clonable reference to the live device object. -/
structure DeviceInfo where
  id : String
  local_name : Option String
  tx_power_level : Option Int
  address : String
  rssi : Option Int
  manufacturer_data : List (Nat × List Nat)
  services : List String
  service_data : List (String × List Nat)
  handle : DeviceHandle
deriving DecidableEq, Repr

/-- Modelled from the spec: `DeviceInfo::new` (crate::structs, not under
src/) — the plain constructor storing the nine arguments passed at
lines 43-53, in that order. -/
def DeviceInfo.new (id : String) (local_name : Option String)
    (tx_power_level : Option Int) (address : String) (rssi : Option Int)
    (manufacturer_data : List (Nat × List Nat)) (services : List String)
    (service_data : List (String × List Nat)) (handle : DeviceHandle) :
    DeviceInfo :=
  { id := id, local_name := local_name, tx_power_level := tx_power_level
    address := address, rssi := rssi, manufacturer_data := manufacturer_data
    services := services, service_data := service_data, handle := handle }

/-- `btleplug::api::CentralEvent`: the tagged discovery-event variants
delivered by `central.events()`; only `DeviceDiscovered` is matched by the
code (line 35). -/
inductive CentralEvent where
  | DeviceDiscovered (id : String)
  | DeviceUpdated (id : String)
  | DeviceConnected (id : String)
  | DeviceDisconnected (id : String)
  | ManufacturerDataAdvertisement (id : String) (data : List (Nat × List Nat))
  | ServiceDataAdvertisement (id : String) (data : List (String × List Nat))
  | ServicesAdvertisement (id : String) (services : List String)
deriving DecidableEq, Repr

/-- The two ways the loop body can abort (spec §7 taxonomy): `?` on
`device.properties()` at line 39, and `?` on `tx.send` at line 56. -/
inductive ScanError where
  | PropertyLookupFailed
  | OutputClosed
deriving DecidableEq, Repr

/-- The event-source collaborator: handle resolution and property lookup,
the two fallible adapter calls made inside the loop body. -/
structure Env where
  peripheral : String → Except Unit DeviceHandle
  props : DeviceHandle → Except Unit (Option PeripheralProperties)

/-- The `DeviceInfo` pushed at lines 43-53: built from `device.id()`, the
resolved (or defaulted) properties, and a clone of the handle. -/
def discoveredInfo (d : DeviceHandle) (p : PeripheralProperties) : DeviceInfo :=
  DeviceInfo.new d.id p.local_name p.tx_power_level p.address p.rssi
    p.manufacturer_data p.services p.service_data d

/-- The event loop at lines 29-59 of `bluetooth_scan`, as a pure recursion
over the delivered events. State: `acc` is `devices_info`, `sent` the
snapshots successfully delivered on `tx` so far (in order). Per event:
non-`DeviceDiscovered` events are skipped (the `if let` at line 35 has no
else); a failed `central.peripheral` is skipped (the `if let Ok` at line 36
has no else); an errored `device.properties()` propagates via `?` (line 39);
`None` properties are defaulted (line 40); the record is appended and a clone
of the accumulated list is sent, `?` on the send aborting with the channel
closed (line 56). Returns the delivered snapshots and the loop's outcome. -/
def runLoop (env : Env) (sendOk : Nat → Bool) :
    List CentralEvent → List DeviceInfo → List (List DeviceInfo) →
    List (List DeviceInfo) × Except ScanError Unit
  | [], _, sent => (sent, .ok ())
  | CentralEvent.DeviceDiscovered id :: rest, acc, sent =>
      match env.peripheral id with
      | .error _ => runLoop env sendOk rest acc sent
      | .ok d =>
        match env.props d with
        | .error _ => (sent, .error .PropertyLookupFailed)
        | .ok p =>
          let acc2 := acc ++ [discoveredInfo d (p.getD PeripheralProperties.default)]
          if sendOk sent.length then runLoop env sendOk rest acc2 (sent ++ [acc2])
          else (sent, .error .OutputClosed)
  | _ :: rest, acc, sent => runLoop env sendOk rest acc sent

/-- `bluetooth_scan` after the (here assumed successful) adapter acquisition
and scan start of lines 20-25: run the loop from the empty accumulated list,
returning the delivered snapshots and the terminal result. -/
def bluetooth_scan (env : Env) (sendOk : Nat → Bool)
    (events : List CentralEvent) :
    List (List DeviceInfo) × Except ScanError Unit :=
  runLoop env sendOk events [] []

/-- The record `runLoop` would append for a `DeviceDiscovered` event whose
resolution and lookup succeed (a specification-side reading of one loop
iteration; the junk branches are never reached under those hypotheses). -/
def discItem (env : Env) (e : CentralEvent) : DeviceInfo :=
  match e with
  | CentralEvent.DeviceDiscovered id =>
    match env.peripheral id with
    | .ok d =>
      match env.props d with
      | .ok p => discoveredInfo d (p.getD PeripheralProperties.default)
      | .error _ => discoveredInfo d PeripheralProperties.default
    | .error _ => discoveredInfo ⟨id⟩ PeripheralProperties.default
  | _ => discoveredInfo ⟨""⟩ PeripheralProperties.default

section Sanity

/-- A concrete environment used by the witnesses: every identity resolves to
the handle with that identity, every property lookup succeeds with `None`. -/
def envW : Env where
  peripheral := fun id => .ok ⟨id⟩
  props := fun _ => .ok none

/-- A channel whose receiver never closes. -/
def sendAlways : Nat → Bool := fun _ => true

/-- A channel whose receiver closed before the run. -/
def sendNever : Nat → Bool := fun _ => false

example :
    (bluetooth_scan envW sendAlways
      [CentralEvent.DeviceDiscovered "a", CentralEvent.DeviceDiscovered "b"]).1
      = [[discItem envW (CentralEvent.DeviceDiscovered "a")],
         [discItem envW (CentralEvent.DeviceDiscovered "a"),
          discItem envW (CentralEvent.DeviceDiscovered "b")]] := by
  decide

example :
    (bluetooth_scan envW sendNever [CentralEvent.DeviceDiscovered "a"]).2
      = .error .OutputClosed := rfl

/-- An environment in which every handle resolution fails. -/
def envNoRes : Env where
  peripheral := fun _ => .error ()
  props := fun _ => .ok none

/-- An environment in which every property lookup errors (as opposed to
succeeding with `None`). -/
def envPropsErr : Env where
  peripheral := fun id => .ok ⟨id⟩
  props := fun _ => .error ()

end Sanity

/-- The identities announced by the `DeviceDiscovered` events of a list, in
delivery order. -/
def discIds (evs : List CentralEvent) : List String :=
  evs.filterMap (fun e =>
    match e with
    | CentralEvent.DeviceDiscovered id => some id
    | _ => none)


/-- `btleplug` GATT descriptor, as exposed on a connected peripheral; the
code reads only its `uuid` (line 81). -/
structure BtleDescriptor where
  uuid : String
deriving DecidableEq, Repr

/-- `btleplug` GATT characteristic, as returned by
`peripheral.characteristics()` (line 72): identifier, owning service,
property bitset (opaque, modelled as a number) and descriptor list in the
collaborator's order. -/
structure BtleCharacteristic where
  uuid : String
  service_uuid : String
  properties : Nat
  descriptors : List BtleDescriptor
deriving DecidableEq, Repr

/-- Modelled from the spec: `Characteristic` (crate::structs, not under
src/) — the flattened record, with the fields filled at lines 75-84. -/
structure Characteristic where
  uuid : String
  properties : Nat
  descriptors : List String
  service : String
deriving DecidableEq, Repr

/-- The two failure modes of `get_characteristics` (spec §7): the first `?`
at line 70 (the `timeout` elapsed), and the second `?` (the connect itself
failed within the deadline). -/
inductive EnumError where
  | ConnectTimeout
  | ConnectFailed
deriving DecidableEq, Repr

/-- The behaviour of `peripheral.connect()` as an abstract timed operation:
it resolves after `completionTime` seconds with `outcome`. -/
structure ConnectOp where
  completionTime : Nat
  outcome : Except Unit Unit

/-- The peripheral collaborator seen by `get_characteristics`: its connect
behaviour and the characteristic list resolved once connected. -/
structure PeripheralM where
  connectOp : ConnectOp
  characteristics : List BtleCharacteristic

/-- `timeout(duration, peripheral.connect()).await??` (line 70), with the
deadline in seconds: if the operation resolves within the deadline its own
result is propagated (an inner error becoming the connect failure), and
otherwise the timeout elapses. -/
def timeoutAwait (deadline : Nat) (op : ConnectOp) : Except EnumError Unit :=
  if op.completionTime ≤ deadline then
    match op.outcome with
    | .ok _ => .ok ()
    | .error _ => .error .ConnectFailed
  else .error .ConnectTimeout

/-- `get_characteristics` (lines 66-87): connect under the fixed 10-second
deadline (`Duration::from_secs(10)`, line 69), then flatten every exposed
characteristic into a `Characteristic` record (lines 72-85). -/
def get_characteristics (p : PeripheralM) :
    Except EnumError (List Characteristic) :=
  match timeoutAwait 10 p.connectOp with
  | .error e => .error e
  | .ok _ =>
    .ok (p.characteristics.map (fun c =>
      { uuid := c.uuid
        properties := c.properties
        descriptors := c.descriptors.map BtleDescriptor.uuid
        service := c.service_uuid }))


/-- State of the timed event-loop machine that makes the pause flag of
lines 29-33 observable. `time` counts the cooperative suspension points
passed so far; `pending` the events not yet returned by `events.next()`;
`held` an event already returned by `events.next()` but not yet processed
(the loop variable `event` while the pause busy-poll runs); `acc` and
`sent` as in `runLoop`; `result` the terminal outcome once the loop has
exited. -/
structure MachineState where
  time : Nat
  pending : List CentralEvent
  held : Option CentralEvent
  acc : List DeviceInfo
  sent : List (List DeviceInfo)
  result : Option (Except ScanError Unit)

/-- One cooperative step of the loop of lines 29-59, with the shared pause
flag read as `pause` at the machine's current time. A finished machine is
inert. If an event is held and the flag is set, the machine only sleeps
(line 32): nothing is consumed, processed or published. If the flag is
clear, the held event is processed exactly as in the loop body (lines
35-58). With no event held, the machine either pulls the next event from
the source (`events.next()`, line 29) — the pull itself is not guarded by
the flag, which is only polled before processing — or, when the source is
exhausted, exits the loop with `Ok(())` (line 61). -/
def step (env : Env) (sendOk : Nat → Bool) (pause : Nat → Bool)
    (s : MachineState) : MachineState :=
  match s.result with
  | some _ => s
  | none =>
    match s.held with
    | some e =>
      if pause s.time then { s with time := s.time + 1 }
      else
        match e with
        | CentralEvent.DeviceDiscovered id =>
          match env.peripheral id with
          | .error _ => { s with held := none, time := s.time + 1 }
          | .ok d =>
            match env.props d with
            | .error _ =>
              { s with held := none,
                       result := some (.error .PropertyLookupFailed),
                       time := s.time + 1 }
            | .ok p =>
              let acc2 :=
                s.acc ++ [discoveredInfo d (p.getD PeripheralProperties.default)]
              if sendOk s.sent.length then
                { s with held := none, acc := acc2, sent := s.sent ++ [acc2],
                         time := s.time + 1 }
              else
                { s with held := none,
                         result := some (.error .OutputClosed),
                         time := s.time + 1 }
        | _ => { s with held := none, time := s.time + 1 }
    | none =>
      match s.pending with
      | [] => { s with result := some (.ok ()), time := s.time + 1 }
      | e :: rest =>
        { s with held := some e, pending := rest, time := s.time + 1 }

/-- `n` cooperative steps of the machine. -/
def stepN (env : Env) (sendOk : Nat → Bool) (pause : Nat → Bool) :
    Nat → MachineState → MachineState
  | 0, s => s
  | n + 1, s => stepN env sendOk pause n (step env sendOk pause s)

/-- The machine at the start of the loop: the source will deliver `events`,
nothing accumulated, nothing sent. -/
def initState (events : List CentralEvent) : MachineState :=
  { time := 0, pending := events, held := none, acc := [], sent := [],
    result := none }

/-- The held event, as a (zero- or one-element) list of events still to be
processed. -/
def heldEvents (s : MachineState) : List CentralEvent :=
  match s.held with
  | some e => [e]
  | none => []

/-- Abstraction of a machine state to the pure loop: the snapshots and
outcome the run will have produced once it terminates. -/
def absSent (env : Env) (sendOk : Nat → Bool) (s : MachineState) :
    List (List DeviceInfo) × Except ScanError Unit :=
  match s.result with
  | some r => (s.sent, r)
  | none => runLoop env sendOk (heldEvents s ++ s.pending) s.acc s.sent

/-- Termination measure for the machine once the pause flag is permanently
clear from time `T` on: remaining pause budget plus remaining work. -/
def machineMeasure (T : Nat) (s : MachineState) : Nat :=
  (T - s.time) + 2 * s.pending.length +
    (match s.held with | some _ => 1 | none => 0) +
    (match s.result with | some _ => 0 | none => 1)

/-- A pause flag used by the witness: set up to time 2, clear afterwards. -/
def pauseW : Nat → Bool := fun t => decide (t < 2)

/-- Full characterization of the loop when every event is a successfully
resolving discovery and every send succeeds: the delivered snapshots are
exactly the prefixes of the constructed records, one snapshot per event,
each extending the accumulated list it started from. -/
theorem runLoop_all_ok (env : Env) (sendOk : Nat → Bool)
    (hsend : ∀ n, sendOk n = true) :
    ∀ (evs : List CentralEvent) (acc : List DeviceInfo)
      (sent : List (List DeviceInfo)),
    (∀ e ∈ evs, ∃ id, e = CentralEvent.DeviceDiscovered id ∧
       ∃ d, env.peripheral id = .ok d ∧ ∃ pr, env.props d = .ok pr) →
    runLoop env sendOk evs acc sent =
      (sent ++ (List.range evs.length).map
        (fun k => acc ++ (evs.map (discItem env)).take (k + 1)), .ok ()) := by
  intro evs
  induction evs with
  | nil => intro acc sent _; simp [runLoop]
  | cons e rest ih =>
    intro acc sent h
    obtain ⟨id, rfl, d, hd, pr, hpr⟩ := h e (List.mem_cons_self _ _)
    have hitem : discItem env (CentralEvent.DeviceDiscovered id) =
        discoveredInfo d (pr.getD PeripheralProperties.default) := by
      simp [discItem, hd, hpr]
    have hrest := fun e' he' => h e' (List.mem_cons_of_mem _ he')
    rw [runLoop]
    simp only [hd, hpr, hsend, if_true]
    rw [ih _ _ hrest]
    simp [hitem, List.range_succ_eq_map, List.take_succ_cons,
      Function.comp_def, List.append_assoc]

/-- C1: for a run over N discovery events with pairwise-distinct identities
in which every handle resolution and property lookup succeeds and every
send succeeds, the loop ends normally, exactly N snapshots are published,
the k-th snapshot has exactly k+1 elements, each snapshot is a prefix of
the next, and the k-th snapshot is the first k+1 constructed records in
discovery order. -/
theorem monotonic_accumulation (env : Env) (sendOk : Nat → Bool)
    (ids : List String)
    (hnodup : ids.Nodup)
    (hres : ∀ id ∈ ids, ∃ d, env.peripheral id = .ok d ∧
      ∃ pr, env.props d = .ok pr)
    (hsend : ∀ n, sendOk n = true) :
    (bluetooth_scan env sendOk (ids.map CentralEvent.DeviceDiscovered)).2
        = .ok () ∧
    (bluetooth_scan env sendOk
        (ids.map CentralEvent.DeviceDiscovered)).1.length = ids.length ∧
    (∀ k, k < ids.length →
      ((bluetooth_scan env sendOk
          (ids.map CentralEvent.DeviceDiscovered)).1.getD k []).length
        = k + 1) ∧
    (∀ k, k + 1 < ids.length →
      (bluetooth_scan env sendOk
          (ids.map CentralEvent.DeviceDiscovered)).1.getD k [] <+:
        (bluetooth_scan env sendOk
          (ids.map CentralEvent.DeviceDiscovered)).1.getD (k + 1) []) ∧
    (∀ k, k < ids.length →
      (bluetooth_scan env sendOk
          (ids.map CentralEvent.DeviceDiscovered)).1.getD k [] =
        ((ids.map CentralEvent.DeviceDiscovered).map
          (discItem env)).take (k + 1)) := by
  have _hnd := hnodup
  have hall : ∀ e ∈ ids.map CentralEvent.DeviceDiscovered,
      ∃ id, e = CentralEvent.DeviceDiscovered id ∧
        ∃ d, env.peripheral id = .ok d ∧ ∃ pr, env.props d = .ok pr := by
    intro e he
    obtain ⟨id, hid, rfl⟩ := List.mem_map.mp he
    exact ⟨id, rfl, hres id hid⟩
  have hchar := runLoop_all_ok env sendOk hsend
    (ids.map CentralEvent.DeviceDiscovered) [] [] hall
  unfold bluetooth_scan
  rw [hchar]
  have hlen : ((ids.map CentralEvent.DeviceDiscovered).map
      (discItem env)).length = ids.length := by simp
  refine ⟨rfl, by simp, ?_, ?_, ?_⟩
  · intro k hk
    rw [List.getD_eq_getElem _ _ (by simpa using hk)]
    simp only [List.nil_append, List.getElem_map, List.getElem_range]
    rw [List.length_take, hlen]
    omega
  · intro k hk
    rw [List.getD_eq_getElem _ _ (by simpa using (by omega : k < ids.length)),
      List.getD_eq_getElem _ _ (by simpa using hk)]
    simp only [List.nil_append, List.getElem_map, List.getElem_range]
    exact List.take_isPrefix_take.mpr (Or.inl (by omega))
  · intro k hk
    rw [List.getD_eq_getElem _ _ (by simpa using hk)]
    simp

/-- Witness for C1 at a concrete input: two distinct identities in `envW`;
the run publishes 2 snapshots, the second has 2 elements and extends the
first. -/
theorem monotonic_accumulation_witness :
    (["a", "b"] : List String).Nodup ∧
    (bluetooth_scan envW sendAlways
        ((["a", "b"] : List String).map CentralEvent.DeviceDiscovered)).1.length
      = 2 ∧
    ((bluetooth_scan envW sendAlways
        ((["a", "b"] : List String).map
          CentralEvent.DeviceDiscovered)).1.getD 1 []).length = 2 ∧
    (bluetooth_scan envW sendAlways
        ((["a", "b"] : List String).map
          CentralEvent.DeviceDiscovered)).1.getD 0 [] <+:
      (bluetooth_scan envW sendAlways
        ((["a", "b"] : List String).map
          CentralEvent.DeviceDiscovered)).1.getD 1 [] := by
  have h := monotonic_accumulation envW sendAlways ["a", "b"] (by decide)
    (fun id _ => ⟨⟨id⟩, rfl, none, rfl⟩) (fun _ => rfl)
  exact ⟨by decide, h.2.1, h.2.2.1 1 (by decide), h.2.2.2.1 0 (by decide)⟩

/-- C8: a connect that does not complete within the 10-second deadline
yields `ConnectTimeout`; a connect that fails within the deadline yields
the distinct `ConnectFailed`; and whenever the call returns a (possibly
empty) list at all, the connection attempt succeeded within the deadline —
no partial list is ever produced on a failed connection attempt. -/
theorem connect_failure_yields_no_characteristics (p : PeripheralM) :
    (10 < p.connectOp.completionTime →
      get_characteristics p = .error .ConnectTimeout) ∧
    (p.connectOp.completionTime ≤ 10 → p.connectOp.outcome = .error () →
      get_characteristics p = .error .ConnectFailed) ∧
    (∀ cs, get_characteristics p = .ok cs →
      p.connectOp.completionTime ≤ 10 ∧ p.connectOp.outcome = .ok ()) := by
  refine ⟨?_, ?_, ?_⟩
  · intro h
    simp [get_characteristics, timeoutAwait, Nat.not_le.mpr h]
  · intro h he
    simp [get_characteristics, timeoutAwait, h, he]
  · intro cs h
    by_cases ht : p.connectOp.completionTime ≤ 10
    · refine ⟨ht, ?_⟩
      cases ho : p.connectOp.outcome with
      | ok u => rfl
      | error e =>
        simp [get_characteristics, timeoutAwait, ht, ho] at h
    · simp [get_characteristics, timeoutAwait, ht] at h

/-- Witness for C8 at concrete inputs: a connect resolving after 11 seconds
times out; a connect failing after 1 second yields `ConnectFailed`; neither
returns a list. -/
theorem connect_failure_yields_no_characteristics_witness :
    (10 < 11 ∧
      get_characteristics ⟨⟨11, .ok ()⟩, [⟨"c1", "s1", 5, []⟩]⟩ =
        .error .ConnectTimeout) ∧
    (1 ≤ 10 ∧
      get_characteristics ⟨⟨1, .error ()⟩, [⟨"c1", "s1", 5, []⟩]⟩ =
        .error .ConnectFailed) :=
  ⟨⟨by decide,
    (connect_failure_yields_no_characteristics
      ⟨⟨11, .ok ()⟩, [⟨"c1", "s1", 5, []⟩]⟩).1 (by decide)⟩,
   ⟨by decide,
    (connect_failure_yields_no_characteristics
      ⟨⟨1, .error ()⟩, [⟨"c1", "s1", 5, []⟩]⟩).2.1 (by decide) rfl⟩⟩

/-- C9: on a connection that succeeds within the deadline, the call returns
exactly one `Characteristic` record per exposed characteristic, in the
collaborator's order, carrying its identifier, property bitset, descriptor
identifiers (order preserved) and owning service identifier; a device
exposing no characteristics yields `Ok([])`. -/
theorem enumeration_flattening (p : PeripheralM)
    (ht : p.connectOp.completionTime ≤ 10)
    (ho : p.connectOp.outcome = .ok ()) :
    get_characteristics p =
      .ok (p.characteristics.map (fun c =>
        { uuid := c.uuid
          properties := c.properties
          descriptors := c.descriptors.map BtleDescriptor.uuid
          service := c.service_uuid })) ∧
    (p.characteristics = [] → get_characteristics p = .ok []) := by
  have h : get_characteristics p =
      .ok (p.characteristics.map (fun c =>
        { uuid := c.uuid
          properties := c.properties
          descriptors := c.descriptors.map BtleDescriptor.uuid
          service := c.service_uuid })) := by
    simp [get_characteristics, timeoutAwait, ht, ho]
  exact ⟨h, fun he => by rw [h, he]; rfl⟩

/-- Witness for C9 at the spec's concrete example: one service exposes one
characteristic with two descriptors, another service exposes none (so the
collaborator's flat list has a single entry); the result is exactly one
record with both descriptor identifiers in order and the owning service. -/
theorem enumeration_flattening_witness :
    (1 ≤ 10 ∧ (Except.ok () : Except Unit Unit) = .ok ()) ∧
    get_characteristics ⟨⟨1, .ok ()⟩, [⟨"c1", "s1", 5, [⟨"d1"⟩, ⟨"d2"⟩]⟩]⟩ =
      .ok [{ uuid := "c1", properties := 5, descriptors := ["d1", "d2"],
             service := "s1" }] :=
  ⟨⟨by decide, rfl⟩,
   (enumeration_flattening ⟨⟨1, .ok ()⟩, [⟨"c1", "s1", 5, [⟨"d1"⟩, ⟨"d2"⟩]⟩]⟩
     (by decide) rfl).1⟩

/-- Uniqueness invariant of the loop: if the resolved handle of an identity
carries that identity, the discovered identities still to come are pairwise
distinct and disjoint from the identities already accumulated, the
accumulated identities are distinct, and every snapshot already sent has
distinct identities, then every snapshot the loop delivers has distinct
identities. -/
theorem runLoop_nodup (env : Env) (sendOk : Nat → Bool)
    (hid : ∀ id d, env.peripheral id = .ok d → d.id = id) :
    ∀ (evs : List CentralEvent) (acc : List DeviceInfo)
      (sent : List (List DeviceInfo)),
    (discIds evs).Nodup →
    (∀ i ∈ discIds evs, i ∉ acc.map DeviceInfo.id) →
    (acc.map DeviceInfo.id).Nodup →
    (∀ s ∈ sent, (s.map DeviceInfo.id).Nodup) →
    ∀ s ∈ (runLoop env sendOk evs acc sent).1, (s.map DeviceInfo.id).Nodup := by
  intro evs
  induction evs with
  | nil => intro acc sent _ _ _ hsent; exact hsent
  | cons e rest ih =>
    intro acc sent hnd hdisj hacc hsent
    cases e with
    | DeviceDiscovered id =>
      have hnd' : (id :: discIds rest).Nodup := by
        simpa [discIds] using hnd
      have hdisj' : ∀ i ∈ id :: discIds rest, i ∉ acc.map DeviceInfo.id := by
        intro i hi
        exact hdisj i (by simpa [discIds] using hi)
      cases hp : env.peripheral id with
      | error _ =>
        simp only [runLoop, hp]
        exact ih acc sent hnd'.of_cons
          (fun i hi => hdisj' i (List.mem_cons_of_mem _ hi)) hacc hsent
      | ok d =>
        cases hq : env.props d with
        | error _ =>
          simp only [runLoop, hp, hq]
          exact hsent
        | ok p =>
          simp only [runLoop, hp, hq]
          by_cases hs : sendOk sent.length = true
          · rw [if_pos hs]
            have hdid : d.id = id := hid id d hp
            have hacc2 : ((acc ++ [discoveredInfo d
                (p.getD PeripheralProperties.default)]).map
                  DeviceInfo.id).Nodup := by
              rw [List.map_append]
              refine hacc.append (List.nodup_singleton _) ?_
              intro a ha hb
              simp only [List.map_cons, List.map_nil, List.mem_singleton,
                discoveredInfo, DeviceInfo.new] at hb
              subst hb
              exact hdisj' _ (List.mem_cons_self _ _) (hdid ▸ ha)
            refine ih _ _ hnd'.of_cons ?_ hacc2 ?_
            · intro i hi
              rw [List.map_append]
              intro hmem
              rcases List.mem_append.mp hmem with hmem | hmem
              · exact hdisj' i (List.mem_cons_of_mem _ hi) hmem
              · simp only [List.map_cons, List.map_nil, List.mem_singleton,
                  discoveredInfo, DeviceInfo.new] at hmem
                rw [hmem, hdid] at hi
                exact (List.nodup_cons.mp hnd').1 hi
            · intro s hsm
              rcases List.mem_append.mp hsm with hsm | hsm
              · exact hsent s hsm
              · rw [List.mem_singleton.mp hsm]
                exact hacc2
          · rw [if_neg hs]
            exact hsent
    | DeviceUpdated id =>
      exact ih acc sent (by simpa [discIds] using hnd)
        (fun i hi => hdisj i (by simpa [discIds] using hi)) hacc hsent
    | DeviceConnected id =>
      exact ih acc sent (by simpa [discIds] using hnd)
        (fun i hi => hdisj i (by simpa [discIds] using hi)) hacc hsent
    | DeviceDisconnected id =>
      exact ih acc sent (by simpa [discIds] using hnd)
        (fun i hi => hdisj i (by simpa [discIds] using hi)) hacc hsent
    | ManufacturerDataAdvertisement id data =>
      exact ih acc sent (by simpa [discIds] using hnd)
        (fun i hi => hdisj i (by simpa [discIds] using hi)) hacc hsent
    | ServiceDataAdvertisement id data =>
      exact ih acc sent (by simpa [discIds] using hnd)
        (fun i hi => hdisj i (by simpa [discIds] using hi)) hacc hsent
    | ServicesAdvertisement id services =>
      exact ih acc sent (by simpa [discIds] using hnd)
        (fun i hi => hdisj i (by simpa [discIds] using hi)) hacc hsent

/-- C2 counterexample: the code does not deduplicate re-discoveries. If the
event source emits `DeviceDiscovered "a"` twice, the second published
snapshot (the accumulated sequence after the second event) contains
identity `"a"` twice — the claim as stated fails for sources that repeat an
identity. -/
theorem duplicate_discovery_duplicates_identity :
    ((bluetooth_scan envW sendAlways
        [CentralEvent.DeviceDiscovered "a",
         CentralEvent.DeviceDiscovered "a"]).1.getD 1 []).map DeviceInfo.id
      = ["a", "a"] ∧
    ¬ (((bluetooth_scan envW sendAlways
        [CentralEvent.DeviceDiscovered "a",
         CentralEvent.DeviceDiscovered "a"]).1.getD 1 []).map
          DeviceInfo.id).Nodup := by
  decide

/-- C2 (amended): provided the event source emits `DeviceDiscovered` at
most once per identity (pairwise-distinct discovered identities) and
resolved handles carry the identity they were resolved from, each identity
appears at most once in every published snapshot — and hence in the
accumulated sequence — whatever the other event kinds, resolution failures,
or the point at which the run terminates. -/
theorem unique_identity_per_snapshot (env : Env) (sendOk : Nat → Bool)
    (evs : List CentralEvent)
    (hid : ∀ id d, env.peripheral id = .ok d → d.id = id)
    (hnodup : (discIds evs).Nodup) :
    ∀ s ∈ (bluetooth_scan env sendOk evs).1, (s.map DeviceInfo.id).Nodup := by
  exact runLoop_nodup env sendOk hid evs [] [] hnodup
    (by simp) (by simp) (by simp)

/-- Witness for C2 (amended) at a concrete input: two distinct identities
in `envW`; the second published snapshot has pairwise-distinct identities. -/
theorem unique_identity_per_snapshot_witness :
    (discIds [CentralEvent.DeviceDiscovered "a",
        CentralEvent.DeviceDiscovered "b"]).Nodup ∧
    (((bluetooth_scan envW sendAlways
        [CentralEvent.DeviceDiscovered "a",
         CentralEvent.DeviceDiscovered "b"]).1.getD 1 []).map
          DeviceInfo.id).Nodup := by
  refine ⟨by decide, ?_⟩
  exact unique_identity_per_snapshot envW sendAlways
    [CentralEvent.DeviceDiscovered "a", CentralEvent.DeviceDiscovered "b"]
    (fun id d h => by
      simp only [envW] at h
      cases h
      rfl)
    (by decide) _ (by decide)

/-- C10: a `DeviceDiscovered` event whose handle resolution
(`central.peripheral(&id)`, line 36) returns an error is silently skipped:
no `DeviceInfo` is appended, no snapshot is published, no error is returned,
and the loop continues with the remaining events unchanged. -/
theorem resolution_failure_skipped (env : Env) (sendOk : Nat → Bool)
    (id : String) (rest : List CentralEvent) (acc : List DeviceInfo)
    (sent : List (List DeviceInfo))
    (hp : env.peripheral id = .error ()) :
    runLoop env sendOk (CentralEvent.DeviceDiscovered id :: rest) acc sent =
      runLoop env sendOk rest acc sent := by
  simp [runLoop, hp]

/-- Witness for C10 at a concrete input: resolution of `"a"` fails in
`envNoRes` and the event is skipped. -/
theorem resolution_failure_skipped_witness :
    Env.peripheral envNoRes "a" = .error () ∧
    runLoop envNoRes sendAlways [CentralEvent.DeviceDiscovered "a"] [] [] =
      runLoop envNoRes sendAlways [] [] [] :=
  ⟨rfl, resolution_failure_skipped envNoRes sendAlways "a" [] [] [] rfl⟩

/-- C7: processing any event that is not `DeviceDiscovered` (update,
connect, disconnect, advertisement events) leaves the accumulated sequence
exactly unchanged and publishes no snapshot: the loop continues on the
remaining events with the same state. -/
theorem other_events_ignored (env : Env) (sendOk : Nat → Bool)
    (e : CentralEvent) (rest : List CentralEvent) (acc : List DeviceInfo)
    (sent : List (List DeviceInfo))
    (h : ∀ id, e ≠ CentralEvent.DeviceDiscovered id) :
    runLoop env sendOk (e :: rest) acc sent = runLoop env sendOk rest acc sent := by
  cases e with
  | DeviceDiscovered id => exact absurd rfl (h id)
  | _ => rfl

/-- Witness for C7 at a concrete input: a `DeviceUpdated` event changes
nothing. -/
theorem other_events_ignored_witness :
    (∀ id, CentralEvent.DeviceUpdated "a" ≠ CentralEvent.DeviceDiscovered id) ∧
    runLoop envW sendAlways [CentralEvent.DeviceUpdated "a"] [] [] =
      runLoop envW sendAlways [] [] [] :=
  ⟨fun _ h => CentralEvent.noConfusion h,
   other_events_ignored envW sendAlways (CentralEvent.DeviceUpdated "a") [] [] []
     (fun _ h => CentralEvent.noConfusion h)⟩

/-- C4: a `DeviceDiscovered` event whose handle resolution succeeds but
whose property lookup returns an error (the `?` at line 39) terminates the
run immediately with that error: no `DeviceInfo` is appended, no further
snapshot is published (the delivered snapshots stay exactly `sent`), and no
further event is processed (the result does not depend on `rest`). -/
theorem property_error_fatal (env : Env) (sendOk : Nat → Bool)
    (id : String) (rest : List CentralEvent) (acc : List DeviceInfo)
    (sent : List (List DeviceInfo)) (d : DeviceHandle)
    (hp : env.peripheral id = .ok d) (he : env.props d = .error ()) :
    runLoop env sendOk (CentralEvent.DeviceDiscovered id :: rest) acc sent =
      (sent, .error ScanError.PropertyLookupFailed) := by
  simp [runLoop, hp, he]

/-- Witness for C4 at a concrete input: in `envPropsErr` the run aborts at
the first discovery, with a pending second event left unprocessed. -/
theorem property_error_fatal_witness :
    Env.peripheral envPropsErr "a" = .ok ⟨"a"⟩ ∧
    Env.props envPropsErr ⟨"a"⟩ = .error () ∧
    runLoop envPropsErr sendAlways
        [CentralEvent.DeviceDiscovered "a", CentralEvent.DeviceDiscovered "b"]
        [] [] =
      ([], .error ScanError.PropertyLookupFailed) :=
  ⟨rfl, rfl,
   property_error_fatal envPropsErr sendAlways "a"
     [CentralEvent.DeviceDiscovered "b"] [] [] ⟨"a"⟩ rfl rfl⟩

/-- C5: when the receiving side of the output channel has closed (every
send from the current point on fails), the first subsequent publish attempt
— triggered by the next fully-resolved discovery — makes the loop stop
consuming events (the result does not depend on `rest`) and return the
output-closed error without retrying, while the snapshots already delivered
(`sent`) are left intact. -/
theorem output_closed_terminates (env : Env) (sendOk : Nat → Bool)
    (id : String) (rest : List CentralEvent) (acc : List DeviceInfo)
    (sent : List (List DeviceInfo)) (d : DeviceHandle)
    (p : Option PeripheralProperties)
    (hp : env.peripheral id = .ok d) (hq : env.props d = .ok p)
    (hclosed : ∀ n, sent.length ≤ n → sendOk n = false) :
    runLoop env sendOk (CentralEvent.DeviceDiscovered id :: rest) acc sent =
      (sent, .error ScanError.OutputClosed) := by
  simp [runLoop, hp, hq, hclosed sent.length le_rfl]

/-- Witness for C5 at a concrete input: with the receiver closed from the
start, the first discovery returns the output-closed error and the pending
second event is never consumed. -/
theorem output_closed_terminates_witness :
    Env.peripheral envW "a" = .ok ⟨"a"⟩ ∧
    Env.props envW ⟨"a"⟩ = .ok none ∧
    (∀ n, List.length ([] : List (List DeviceInfo)) ≤ n → sendNever n = false) ∧
    runLoop envW sendNever
        [CentralEvent.DeviceDiscovered "a", CentralEvent.DeviceDiscovered "b"]
        [] [] =
      ([], .error ScanError.OutputClosed) :=
  ⟨rfl, rfl, fun _ _ => rfl,
   output_closed_terminates envW sendNever "a"
     [CentralEvent.DeviceDiscovered "b"] [] [] ⟨"a"⟩ none rfl rfl
     (fun _ _ => rfl)⟩

/-- C3: a discovery whose resolution succeeds and whose property lookup
returns `Ok(None)` is defaulted (`unwrap_or(PeripheralProperties::default())`,
line 40): the constructed `DeviceInfo` has every optional field empty and
every collection empty, it is appended to the accumulated list, the snapshot
published contains it, and the loop continues with the remaining events
rather than aborting. -/
theorem none_properties_defaulted (env : Env) (sendOk : Nat → Bool)
    (id : String) (rest : List CentralEvent) (acc : List DeviceInfo)
    (sent : List (List DeviceInfo)) (d : DeviceHandle)
    (hp : env.peripheral id = .ok d) (hq : env.props d = .ok none)
    (hs : sendOk sent.length = true) :
    discoveredInfo d PeripheralProperties.default =
      { id := d.id, local_name := none, tx_power_level := none,
        address := "00:00:00:00:00:00", rssi := none, manufacturer_data := [],
        services := [], service_data := [], handle := d } ∧
    discoveredInfo d PeripheralProperties.default ∈
      acc ++ [discoveredInfo d PeripheralProperties.default] ∧
    runLoop env sendOk (CentralEvent.DeviceDiscovered id :: rest) acc sent =
      runLoop env sendOk rest
        (acc ++ [discoveredInfo d PeripheralProperties.default])
        (sent ++ [acc ++ [discoveredInfo d PeripheralProperties.default]]) := by
  refine ⟨rfl, List.mem_append_right _ (List.mem_singleton_self _), ?_⟩
  simp [runLoop, hp, hq, hs]

/-- Witness for C3 at a concrete input: in `envW` (all lookups return
`None`) the first discovery appends the all-default record and the loop
continues. -/
theorem none_properties_defaulted_witness :
    Env.peripheral envW "a" = .ok ⟨"a"⟩ ∧
    Env.props envW ⟨"a"⟩ = .ok none ∧
    sendAlways (List.length ([] : List (List DeviceInfo))) = true ∧
    (discoveredInfo ⟨"a"⟩ PeripheralProperties.default =
      { id := "a", local_name := none, tx_power_level := none,
        address := "00:00:00:00:00:00", rssi := none, manufacturer_data := [],
        services := [], service_data := [], handle := ⟨"a"⟩ } ∧
     discoveredInfo ⟨"a"⟩ PeripheralProperties.default ∈
       [] ++ [discoveredInfo ⟨"a"⟩ PeripheralProperties.default] ∧
     runLoop envW sendAlways
         [CentralEvent.DeviceDiscovered "a", CentralEvent.DeviceDiscovered "b"]
         [] [] =
       runLoop envW sendAlways [CentralEvent.DeviceDiscovered "b"]
         ([] ++ [discoveredInfo ⟨"a"⟩ PeripheralProperties.default])
         ([] ++ [[] ++ [discoveredInfo ⟨"a"⟩ PeripheralProperties.default]])) :=
  ⟨rfl, rfl, rfl,
   none_properties_defaulted envW sendAlways "a"
     [CentralEvent.DeviceDiscovered "b"] [] [] ⟨"a"⟩ rfl rfl rfl⟩

/-- Each machine step preserves the abstraction to the pure loop: pulling
moves an event from `pending` to `held`, sleeping changes only the clock,
and processing performs exactly one `runLoop` step. -/
theorem absSent_step (env : Env) (sendOk : Nat → Bool) (pause : Nat → Bool)
    (s : MachineState) :
    absSent env sendOk (step env sendOk pause s) = absSent env sendOk s := by
  cases hres : s.result with
  | some r => simp [step, absSent, hres]
  | none =>
    cases hheld : s.held with
    | none =>
      cases hpend : s.pending with
      | nil => simp [step, absSent, hres, hheld, hpend, heldEvents, runLoop]
      | cons e rest =>
        simp [step, absSent, hres, hheld, hpend, heldEvents]
    | some e =>
      by_cases hp : pause s.time
      · simp [step, absSent, hres, hheld, hp, heldEvents]
      · cases e with
        | DeviceDiscovered id =>
          cases hperi : env.peripheral id with
          | error err =>
            simp [step, absSent, hres, hheld, hp, hperi, heldEvents, runLoop]
          | ok d =>
            cases hq : env.props d with
            | error err =>
              simp [step, absSent, hres, hheld, hp, hperi, hq, heldEvents,
                runLoop]
            | ok p =>
              by_cases hs : sendOk s.sent.length
              · simp [step, absSent, hres, hheld, hp, hperi, hq, hs,
                  heldEvents, runLoop]
              · simp [step, absSent, hres, hheld, hp, hperi, hq, hs,
                  heldEvents, runLoop]
        | DeviceUpdated id =>
          simp [step, absSent, hres, hheld, hp, heldEvents, runLoop]
        | DeviceConnected id =>
          simp [step, absSent, hres, hheld, hp, heldEvents, runLoop]
        | DeviceDisconnected id =>
          simp [step, absSent, hres, hheld, hp, heldEvents, runLoop]
        | ManufacturerDataAdvertisement id data =>
          simp [step, absSent, hres, hheld, hp, heldEvents, runLoop]
        | ServiceDataAdvertisement id data =>
          simp [step, absSent, hres, hheld, hp, heldEvents, runLoop]
        | ServicesAdvertisement id services =>
          simp [step, absSent, hres, hheld, hp, heldEvents, runLoop]

/-- The abstraction is preserved by any number of steps. -/
theorem absSent_stepN (env : Env) (sendOk : Nat → Bool) (pause : Nat → Bool)
    (n : Nat) :
    ∀ s : MachineState,
      absSent env sendOk (stepN env sendOk pause n s) = absSent env sendOk s := by
  induction n with
  | zero => intro s; rfl
  | succ n ih =>
    intro s
    rw [stepN, ih (step env sendOk pause s), absSent_step]

/-- Once the pause flag is permanently clear from time `T` on, every step
taken from an unfinished state strictly decreases the termination measure. -/
theorem machineMeasure_step_lt (env : Env) (sendOk : Nat → Bool)
    (pause : Nat → Bool) (T : Nat) (hT : ∀ t, T ≤ t → pause t = false)
    (s : MachineState) (hres : s.result = none) :
    machineMeasure T (step env sendOk pause s) < machineMeasure T s := by
  cases hheld : s.held with
  | none =>
    cases hpend : s.pending with
    | nil =>
      simp [step, machineMeasure, hres, hheld, hpend]
      omega
    | cons e rest =>
      simp [step, machineMeasure, hres, hheld, hpend]
      omega
  | some e =>
    by_cases hp : pause s.time
    · have htime : s.time < T := by
        by_contra hge
        have := hT s.time (by omega)
        rw [this] at hp
        exact Bool.noConfusion hp
      simp [step, machineMeasure, hres, hheld, hp]
      omega
    · cases e with
      | DeviceDiscovered id =>
        cases hperi : env.peripheral id with
        | error err =>
          simp [step, machineMeasure, hres, hheld, hp, hperi]
          omega
        | ok d =>
          cases hq : env.props d with
          | error err =>
            simp [step, machineMeasure, hres, hheld, hp, hperi, hq]
            omega
          | ok p =>
            by_cases hs : sendOk s.sent.length
            · simp [step, machineMeasure, hres, hheld, hp, hperi, hq, hs]
              omega
            · simp [step, machineMeasure, hres, hheld, hp, hperi, hq, hs]
              omega
      | DeviceUpdated id =>
        simp [step, machineMeasure, hres, hheld, hp]
        omega
      | DeviceConnected id =>
        simp [step, machineMeasure, hres, hheld, hp]
        omega
      | DeviceDisconnected id =>
        simp [step, machineMeasure, hres, hheld, hp]
        omega
      | ManufacturerDataAdvertisement id data =>
        simp [step, machineMeasure, hres, hheld, hp]
        omega
      | ServiceDataAdvertisement id data =>
        simp [step, machineMeasure, hres, hheld, hp]
        omega
      | ServicesAdvertisement id services =>
        simp [step, machineMeasure, hres, hheld, hp]
        omega

/-- Once the pause flag is permanently clear from time `T` on, the machine
terminates: some number of steps reaches a state with a result. -/
theorem machine_terminates (env : Env) (sendOk : Nat → Bool)
    (pause : Nat → Bool) (T : Nat) (hT : ∀ t, T ≤ t → pause t = false) :
    ∀ (k : Nat) (s : MachineState), machineMeasure T s < k →
      ∃ n, ((stepN env sendOk pause n s).result).isSome = true := by
  intro k
  induction k with
  | zero => intro s h; exact absurd h (Nat.not_lt_zero _)
  | succ k ih =>
    intro s h
    cases hres : s.result with
    | some r => exact ⟨0, by simp [stepN, hres]⟩
    | none =>
      have hdec := machineMeasure_step_lt env sendOk pause T hT s hres
      obtain ⟨n, hn⟩ := ih (step env sendOk pause s) (by omega)
      exact ⟨n + 1, by rw [stepN]; exact hn⟩

/-- C6: pause correctness of the loop. (1) In any state whose current time
has the pause flag set, one step changes neither the accumulated sequence
nor the published snapshots — nothing is processed or published while
paused. (2) A running machine holding an event while the flag is set does
nothing but sleep: the pending events of the source, the held event, and
the whole state except the clock are untouched — no event is consumed
during the busy-poll, so none is lost. (3) Once the flag is permanently
clear from some time `T` on, the run terminates having processed every
event: after some number of steps the machine's result and published
snapshots are exactly those of the pure (pause-free) loop over the full
event list. -/
theorem pause_correctness (env : Env) (sendOk pause : Nat → Bool) :
    (∀ s : MachineState, pause s.time = true →
      (step env sendOk pause s).acc = s.acc ∧
      (step env sendOk pause s).sent = s.sent) ∧
    (∀ (s : MachineState) (e : CentralEvent), s.result = none →
      s.held = some e → pause s.time = true →
      step env sendOk pause s = { s with time := s.time + 1 }) ∧
    (∀ T : Nat, (∀ t, T ≤ t → pause t = false) →
      ∀ events : List CentralEvent, ∃ n : Nat,
        (stepN env sendOk pause n (initState events)).result =
          some (bluetooth_scan env sendOk events).2 ∧
        (stepN env sendOk pause n (initState events)).sent =
          (bluetooth_scan env sendOk events).1) := by
  refine ⟨?_, ?_, ?_⟩
  · intro s hp
    cases hres : s.result with
    | some r => simp [step, hres]
    | none =>
      cases hheld : s.held with
      | some e => simp [step, hres, hheld, hp]
      | none =>
        cases hpend : s.pending with
        | nil => simp [step, hres, hheld, hpend]
        | cons e rest => simp [step, hres, hheld, hpend]
  · intro s e hres hheld hp
    simp [step, hres, hheld, hp]
  · intro T hT events
    obtain ⟨n, hn⟩ := machine_terminates env sendOk pause T hT
      (machineMeasure T (initState events) + 1) (initState events)
      (Nat.lt_succ_self _)
    refine ⟨n, ?_⟩
    obtain ⟨r, hr⟩ := Option.isSome_iff_exists.mp hn
    have habs : absSent env sendOk (stepN env sendOk pause n (initState events))
        = absSent env sendOk (initState events) :=
      absSent_stepN env sendOk pause n (initState events)
    have hinit : absSent env sendOk (initState events)
        = bluetooth_scan env sendOk events := rfl
    have hfin : absSent env sendOk (stepN env sendOk pause n (initState events))
        = ((stepN env sendOk pause n (initState events)).sent, r) := by
      simp [absSent, hr]
    rw [hinit, hfin] at habs
    refine ⟨?_, congrArg Prod.fst habs⟩
    rw [hr]
    exact congrArg some (congrArg Prod.snd habs)

/-- Witness for C6 at a concrete input: the flag is set up to time 2 and
clear afterwards; the machine over one discovery event in `envW` terminates
with the pure run's result and snapshots. -/
theorem pause_correctness_witness :
    (∀ t, 2 ≤ t → pauseW t = false) ∧
    ∃ n : Nat,
      (stepN envW sendAlways pauseW n
        (initState [CentralEvent.DeviceDiscovered "a"])).result =
        some (bluetooth_scan envW sendAlways
          [CentralEvent.DeviceDiscovered "a"]).2 ∧
      (stepN envW sendAlways pauseW n
        (initState [CentralEvent.DeviceDiscovered "a"])).sent =
        (bluetooth_scan envW sendAlways
          [CentralEvent.DeviceDiscovered "a"]).1 := by
  have hpf : ∀ t, 2 ≤ t → pauseW t = false := by
    intro t ht
    simp only [pauseW, decide_eq_false_iff_not]
    omega
  exact ⟨hpf, (pause_correctness envW sendAlways pauseW).2.2 2 hpf
    [CentralEvent.DeviceDiscovered "a"]⟩
